import Mathlib

/-!
Verification of the status-management core of the `mytv` repository
(`src/status_manager.py`): the `StatusManager` class, its reconciliation
loop `_refresh_status`, the background loop `_update_loop`, the manual
override `update_override`, the read accessor `get_status`, and the
content-id resolver `_get_now_playing_id` over `NOW_PLAYING_ID_MAP`.

The Python code is shallowly embedded: the shared dictionaries become
structures, `time.time()` / `datetime.now()` become an abstract `Nat`
instant passed in, the three network fetches of one poll cycle become
explicit inputs, and the one place `_refresh_status` can raise (indexing
`result[0]` on an empty power `result` list) is modelled by an `Option`
return, mirroring the `try/except` in `_update_loop` that swallows it.
-/

namespace MyTV

/-- `NOW_PLAYING_ID_MAP` from `status_manager.py`, in declaration order
(Python dicts preserve insertion order, which the substring loop relies on). -/
def NOW_PLAYING_ID_MAP : List (String × Nat) :=
  [ ("Unknown", 0),
    ("Home Screen", 1),
    ("Web Browser", 2),
    ("PS5", 10),
    ("Switch", 11),
    ("HDMI 3", 12),
    ("HDMI 4", 13),
    ("TV", 20),
    ("AV", 21),
    ("Component", 22),
    ("Netflix", 100),
    ("YouTube", 101),
    ("Disney+", 102),
    ("Prime Video", 103),
    ("Apple TV", 104),
    ("HBO Max", 105),
    ("Spotify", 106),
    ("Plex", 107),
    ("Twitch", 108),
    ("Crunchyroll", 109),
    ("DAZN", 110),
    ("MLB", 111),
    ("NBA", 112) ]

/-- Contiguous-sublist test on character lists, used to model Python's
`in` operator on strings. -/
def charsInfixOf (needle hay : List Char) : Bool :=
  match hay with
  | [] => needle.isEmpty
  | _ :: t => needle.isPrefixOf hay || charsInfixOf needle t

/-- Python's `key in title` substring test on strings. -/
def strContains (key title : String) : Bool :=
  charsInfixOf key.data title.data

/-- Python dict lookup `NOW_PLAYING_ID_MAP[title]` guarded by
`title in NOW_PLAYING_ID_MAP`: exact-key lookup in an association list. -/
def lookupExact (m : List (String × Nat)) (title : String) : Option Nat :=
  match m with
  | [] => none
  | (k, v) :: rest => if k == title then some v else lookupExact rest title

/-- The `for key, val in NOW_PLAYING_ID_MAP.items(): if key in title: return val`
loop: first substring match in declaration order, else the final `return 0`. -/
def substrLookup (m : List (String × Nat)) (title : String) : Nat :=
  match m with
  | [] => 0
  | (k, v) :: rest => if strContains k title then v else substrLookup rest title

/-- `StatusManager._get_now_playing_id`: exact match against the map first,
then the substring loop, else 0. -/
def get_now_playing_id (title : String) : Nat :=
  match lookupExact NOW_PLAYING_ID_MAP title with
  | some v => v
  | none => substrLookup NOW_PLAYING_ID_MAP title

/-- `resolveId` written from the spec's words (section 4.3): exact-match
against the ContentIdentityMap, else first substring match in declared
iteration order, else 0 — phrased with `List.find?` to compare against the
source's recursion. -/
def resolveId_spec (title : String) : Nat :=
  match NOW_PLAYING_ID_MAP.find? (fun kv => kv.1 == title) with
  | some kv => kv.2
  | none =>
    match NOW_PLAYING_ID_MAP.find? (fun kv => strContains kv.1 title) with
    | some kv => kv.2
    | none => 0

theorem lookupExact_eq_find? (m : List (String × Nat)) (t : String) :
    lookupExact m t = (m.find? (fun kv => kv.1 == t)).map (·.2) := by
  induction m with
  | nil => rfl
  | cons kv rest ih =>
    obtain ⟨k, v⟩ := kv
    by_cases h : (k == t) = true
    · simp [lookupExact, List.find?, h]
    · simp only [Bool.not_eq_true] at h
      simp [lookupExact, List.find?, h, ih]

theorem substrLookup_eq_find? (m : List (String × Nat)) (t : String) :
    substrLookup m t = ((m.find? (fun kv => strContains kv.1 t)).map (·.2)).getD 0 := by
  induction m with
  | nil => rfl
  | cons kv rest ih =>
    obtain ⟨k, v⟩ := kv
    by_cases h : strContains k t = true
    · simp [substrLookup, List.find?, h]
    · simp only [Bool.not_eq_true] at h
      simp [substrLookup, List.find?, h, ih]


/-- `self.current_status`: the shared status dictionary.  `timestamp` holds
the instant of the last commit (`datetime.now().isoformat()`), abstracted to
a `Nat` instant; `none` is the initial Python `None`. -/
structure StatusRecord where
  power : String
  volume : Nat
  muted : Bool
  title : String
  uri : String
  now_playing_id : Nat
  timestamp : Option Nat
deriving DecidableEq, Repr

/-- `self.error_counts`: per-signal consecutive-failure counters. -/
structure ErrorCounts where
  power : Nat
  volume : Nat
  now_playing : Nat
deriving DecidableEq, Repr

/-- The mutable state of a `StatusManager` instance: the two configuration
values read in `__init__`, the shared record, the counters, and
`self.last_override_time` (a `time.time()` instant, initially `0`). -/
structure ManagerState where
  poll_interval : Nat
  max_error_iterations : Nat
  current_status : StatusRecord
  error_counts : ErrorCounts
  last_override_time : Nat
deriving DecidableEq, Repr

/-- A response from `make_sony_api_request` as `_refresh_status` inspects it:
the `success` flag, and the `"result"` entry of `data` when present
(`none` models `"result" not in data`). -/
structure SonyResult (α : Type) where
  success : Bool
  result : Option α
deriving DecidableEq, Repr

/-- One element of the inner volume list: a JSON object whose keys
`target` / `volume` / `mute` may each be absent (`v.get` with defaults). -/
structure VolumeEntry where
  target : Option String
  volume : Option Nat
  mute : Option Bool
deriving DecidableEq, Repr

/-- The three upstream observations of one poll cycle.  The power `result`
is the list of status objects, each reduced to its `status` string; the
volume `result` is a JSON list whose elements may (`some`) or may not
(`none`) themselves be lists (the `isinstance(vol_data[0], list)` check);
the now-playing pair is what `_fetch_now_playing` returned. -/
structure FetchInputs where
  power_res : SonyResult (List String)
  vol_res : SonyResult (List (Option (List VolumeEntry)))
  np_title : String
  np_uri : String
deriving DecidableEq, Repr

/-- Power branch of `_refresh_status` (lines 112-120).  Returns the
optional write to `new_values["power"]` and the new error counter, or
`none` for the case `result` is present but empty, where `result[0]`
raises `IndexError` before the counter is touched. -/
def powerStep (maxIter cnt : Nat) (res : SonyResult (List String)) :
    Option (Option String × Nat) :=
  if res.success then
    match res.result with
    | some (st :: _) => some (some st, 0)
    | some [] => none
    | none => some (if cnt + 1 > maxIter then some "offline" else none, cnt + 1)
  else
    some (if cnt + 1 > maxIter then some "offline" else none, cnt + 1)

/-- The `for v in vol_data[0]` loop: first entry whose `target` is
`"speaker"` (the `break`). -/
def speakerEntry : List VolumeEntry → Option VolumeEntry
  | [] => none
  | v :: rest => if v.target == some "speaker" then some v else speakerEntry rest

/-- Volume branch of `_refresh_status` (lines 122-135): the optional write
to `new_values["volume"]/["muted"]` and the new volume error counter.
On success the counter resets even when no speaker entry is found. -/
def volumeStep (cnt : Nat) (res : SonyResult (List (Option (List VolumeEntry)))) :
    Option (Nat × Bool) × Nat :=
  if res.success then
    match res.result with
    | some vol_data =>
      let w :=
        match vol_data with
        | (some (e0 :: es)) :: _ =>
          match speakerEntry (e0 :: es) with
          | some v => some (v.volume.getD 0, v.mute.getD false)
          | none => none
        | _ => none
      (w, 0)
    | none => (none, cnt + 1)
  else (none, cnt + 1)

/-- Now-playing branch of `_refresh_status` (lines 137-149): success is
`title != "Unknown" or uri` (Python truthiness of the string `uri`). -/
def nowPlayingStep (maxIter cnt : Nat) (title uri : String) :
    Option (String × String × Nat) × Nat :=
  if title ≠ "Unknown" ∨ uri ≠ "" then
    (some (title, uri, get_now_playing_id title), 0)
  else
    (if cnt + 1 > maxIter then some ("Unknown", "", 0) else none, cnt + 1)

/-- The field writes of the commit at the end of `_refresh_status`
(lines 151-154), in the order `dict.update` applies `new_values` followed
by the `timestamp` assignment, as individual record writes. -/
def commitProgram (pwr : Option String) (vm : Option (Nat × Bool))
    (np : Option (String × String × Nat)) (now : Nat) :
    List (StatusRecord → StatusRecord) :=
  (match pwr with
   | some p => [fun r => { r with power := p }]
   | none => []) ++
  (match vm with
   | some (v, m) => [fun r => { r with volume := v, muted := m }]
   | none => []) ++
  (match np with
   | some (t, u, i) => [fun r => { r with title := t, uri := u, now_playing_id := i }]
   | none => []) ++
  [fun r => { r with timestamp := some now }]

/-- Applying a list of field writes in order. -/
def commitWrites (fs : List (StatusRecord → StatusRecord)) (r : StatusRecord) :
    StatusRecord :=
  fs.foldl (fun a f => f a) r

/-- `StatusManager._refresh_status`, given the three fetch results of the
cycle and the current instant.  `none` models the `IndexError` escape from
the power branch (caught in `_update_loop`), in which case no state was
changed. -/
def refresh_status (s : ManagerState) (inp : FetchInputs) (now : Nat) :
    Option ManagerState :=
  match powerStep s.max_error_iterations s.error_counts.power inp.power_res with
  | none => none
  | some (pwr, pcnt) =>
    let vstep := volumeStep s.error_counts.volume inp.vol_res
    let nstep := nowPlayingStep s.max_error_iterations s.error_counts.now_playing
      inp.np_title inp.np_uri
    some { s with
      current_status :=
        commitWrites (commitProgram pwr vstep.1 nstep.1 now) s.current_status,
      error_counts :=
        { power := pcnt, volume := vstep.2, now_playing := nstep.2 } }

/-- `StatusManager.get_status`: a copy of the shared record under the lock. -/
def get_status (s : ManagerState) : StatusRecord :=
  s.current_status

/-- `StatusManager.update_override(title, uri)` at instant `now`:
sets title/uri/derived id/timestamp, records the override instant, and
resets the now-playing error counter, all under the lock. -/
def update_override (s : ManagerState) (title uri : String) (now : Nat) :
    ManagerState :=
  { s with
    current_status := { s.current_status with
      title := title,
      uri := uri,
      now_playing_id := get_now_playing_id title,
      timestamp := some now },
    last_override_time := now,
    error_counts := { s.error_counts with now_playing := 0 } }

/-- The cool-down literal `5` in `_update_loop` line 98
(`time.time() - self.last_override_time < 5`). -/
def OVERRIDE_COOLDOWN : Nat := 5

/-- One iteration body of `_update_loop` at instant `now`: skip the poll
inside the cool-down window, otherwise run `_refresh_status`; the
`try/except` keeps the state unchanged when the refresh raises. -/
def update_tick (s : ManagerState) (now : Nat) (inp : FetchInputs) :
    ManagerState :=
  if now - s.last_override_time < OVERRIDE_COOLDOWN then s
  else (refresh_status s inp now).getD s

/-- The environment, as `_refresh_status`'s `__init__` consumes it:
`int(os.getenv(k, d))` becomes a partial map from variable names to parsed
integer values, defaulted when the variable is unset. -/
def Env : Type := String → Option Nat

/-- `int(os.getenv(key, default))`. -/
def getenvInt (env : Env) (key : String) (default : Nat) : Nat :=
  (env key).getD default

/-- `StatusManager.__init__`: configuration read once from the
environment, initial record and counters, `last_override_time = 0`. -/
def initManager (env : Env) : ManagerState :=
  { poll_interval := getenvInt env "POLL_INTERVAL" 10,
    max_error_iterations := getenvInt env "MAX_ERROR_ITERATIONS" 3,
    current_status :=
      { power := "unknown", volume := 0, muted := false, title := "Unknown",
        uri := "", now_playing_id := 0, timestamp := none },
    error_counts := { power := 0, volume := 0, now_playing := 0 },
    last_override_time := 0 }

/-- Iterated poll cycles: each element is the fetch results and instant of
one `_refresh_status` call; an aborted refresh leaves the state unchanged
(the loop's `except` clause). -/
def refreshRun (s : ManagerState) : List (FetchInputs × Nat) → ManagerState
  | [] => s
  | (inp, t) :: rest => refreshRun ((refresh_status s inp t).getD s) rest

/-! ### Basic lemmas about one poll cycle -/

/-- The commit block of `_refresh_status` as a whole-record function:
each optional write lands in its own fields and the timestamp is always
set. -/
theorem commitWrites_commitProgram (pwr : Option String)
    (vm : Option (Nat × Bool)) (np : Option (String × String × Nat))
    (now : Nat) (r : StatusRecord) :
    commitWrites (commitProgram pwr vm np now) r =
      { r with
        power := pwr.getD r.power,
        volume := (vm.map Prod.fst).getD r.volume,
        muted := (vm.map Prod.snd).getD r.muted,
        title := (np.map (·.1)).getD r.title,
        uri := (np.map (·.2.1)).getD r.uri,
        now_playing_id := (np.map (·.2.2)).getD r.now_playing_id,
        timestamp := some now } := by
  rcases pwr with _ | p <;> rcases vm with _ | ⟨v, m⟩ <;> rcases np with _ | ⟨t, u, i⟩ <;>
    simp [commitProgram, commitWrites]

/-- The power branch raises exactly when the response was successful with
an empty `result` list. -/
theorem powerStep_eq_none_iff (maxI c : Nat) (res : SonyResult (List String)) :
    powerStep maxI c res = none ↔ res.success = true ∧ res.result = some [] := by
  obtain ⟨succ, result⟩ := res
  cases succ <;> rcases result with _ | ⟨_ | ⟨st, tl⟩⟩ <;> simp [powerStep]

/-- A failed power fetch (unsuccessful, or no `result` key). -/
def powerFetchFails (inp : FetchInputs) : Prop :=
  inp.power_res.success = false ∨ inp.power_res.result = none

/-- The power branch does not raise on `inp` (`result[0]` is never taken
on an empty list). -/
def powerNoRaise (inp : FetchInputs) : Prop :=
  ¬ (inp.power_res.success = true ∧ inp.power_res.result = some [])

instance (inp : FetchInputs) : Decidable (powerFetchFails inp) := by
  unfold powerFetchFails; infer_instance

instance (inp : FetchInputs) : Decidable (powerNoRaise inp) := by
  unfold powerNoRaise; infer_instance

theorem powerStep_isSome (maxI c : Nat) (res : SonyResult (List String))
    (hp : ¬ (res.success = true ∧ res.result = some [])) :
    ∃ pwr pcnt, powerStep maxI c res = some (pwr, pcnt) := by
  rcases hres : powerStep maxI c res with _ | ⟨pwr, pcnt⟩
  · exact absurd ((powerStep_eq_none_iff maxI c res).mp hres) hp
  · exact ⟨pwr, pcnt, rfl⟩

theorem powerStep_fail (maxI c : Nat) (res : SonyResult (List String))
    (hf : res.success = false ∨ res.result = none) :
    powerStep maxI c res =
      some (if c + 1 > maxI then some "offline" else none, c + 1) := by
  obtain ⟨succ, result⟩ := res
  rcases hf with hf | hf <;> simp only at hf <;> subst hf <;> simp [powerStep]

theorem powerStep_ok (maxI c : Nat) (res : SonyResult (List String))
    (st : String) (tl : List String)
    (hs : res.success = true) (hr : res.result = some (st :: tl)) :
    powerStep maxI c res = some (some st, 0) := by
  obtain ⟨succ, result⟩ := res
  simp only at hs hr
  subst hs; subst hr
  simp [powerStep]

/-- A failed volume fetch (unsuccessful, or no `result` key). -/
def volumeFetchFails (inp : FetchInputs) : Prop :=
  inp.vol_res.success = false ∨ inp.vol_res.result = none

instance (inp : FetchInputs) : Decidable (volumeFetchFails inp) := by
  unfold volumeFetchFails; infer_instance

theorem volumeStep_fail (c : Nat)
    (res : SonyResult (List (Option (List VolumeEntry))))
    (hf : res.success = false ∨ res.result = none) :
    volumeStep c res = (none, c + 1) := by
  obtain ⟨succ, result⟩ := res
  rcases hf with hf | hf <;> simp only at hf <;> subst hf <;> simp [volumeStep]

/-- A successful volume response whose payload never reaches the
`target == "speaker"` write: empty outer list, a first element that is
not a list or is empty, or an inner list without a speaker entry. -/
def noSpeakerWrite (vol_data : List (Option (List VolumeEntry))) : Prop :=
  match vol_data with
  | (some (e :: es)) :: _ => speakerEntry (e :: es) = none
  | _ => True

instance (d : List (Option (List VolumeEntry))) : Decidable (noSpeakerWrite d) := by
  unfold noSpeakerWrite
  rcases d with _ | ⟨_ | ⟨_ | ⟨e, es⟩⟩, rest⟩ <;> infer_instance

theorem volumeStep_success_no_write (c : Nat)
    (res : SonyResult (List (Option (List VolumeEntry))))
    (d : List (Option (List VolumeEntry)))
    (hs : res.success = true) (hr : res.result = some d)
    (hn : noSpeakerWrite d) :
    volumeStep c res = (none, 0) := by
  obtain ⟨succ, result⟩ := res
  simp only at hs hr
  subst hs; subst hr
  unfold noSpeakerWrite at hn
  rcases d with _ | ⟨_ | ⟨_ | ⟨e, es⟩⟩, rest⟩ <;> simp_all [volumeStep]

/-- `refresh_status` unfolded on a non-raising power step. -/
theorem refresh_status_some (s : ManagerState) (inp : FetchInputs) (now : Nat)
    (pwr : Option String) (pcnt : Nat)
    (hp : powerStep s.max_error_iterations s.error_counts.power inp.power_res =
      some (pwr, pcnt)) :
    refresh_status s inp now = some { s with
      current_status :=
        commitWrites
          (commitProgram pwr (volumeStep s.error_counts.volume inp.vol_res).1
            (nowPlayingStep s.max_error_iterations s.error_counts.now_playing
              inp.np_title inp.np_uri).1 now)
          s.current_status,
      error_counts :=
        { power := pcnt,
          volume := (volumeStep s.error_counts.volume inp.vol_res).2,
          now_playing := (nowPlayingStep s.max_error_iterations
            s.error_counts.now_playing inp.np_title inp.np_uri).2 } } := by
  unfold refresh_status
  rw [hp]

/-- A poll cycle never changes the configuration or the override instant. -/
theorem refresh_status_config (s : ManagerState) (inp : FetchInputs) (now : Nat)
    (s2 : ManagerState) (h : refresh_status s inp now = some s2) :
    s2.max_error_iterations = s.max_error_iterations ∧
    s2.poll_interval = s.poll_interval ∧
    s2.last_override_time = s.last_override_time := by
  unfold refresh_status at h
  rcases hps : powerStep s.max_error_iterations s.error_counts.power inp.power_res with
    _ | ⟨pwr, pcnt⟩ <;> rw [hps] at h
  · exact absurd h (by simp)
  · obtain rfl := (Option.some_inj.mp h).symm
    exact ⟨rfl, rfl, rfl⟩

/-- One poll cycle with a failed power fetch: the counter bumps, and the
cached power is retained inside the grace period or forced to `"offline"`
past it. -/
theorem refresh_power_fail (s : ManagerState) (inp : FetchInputs) (now : Nat)
    (hf : powerFetchFails inp) :
    ∃ s2, refresh_status s inp now = some s2 ∧
      s2.error_counts.power = s.error_counts.power + 1 ∧
      s2.max_error_iterations = s.max_error_iterations ∧
      (s.error_counts.power + 1 ≤ s.max_error_iterations →
        s2.current_status.power = s.current_status.power) ∧
      (s.error_counts.power + 1 > s.max_error_iterations →
        s2.current_status.power = "offline") := by
  have hps := powerStep_fail s.max_error_iterations s.error_counts.power
    inp.power_res hf
  refine ⟨_, refresh_status_some s inp now _ _ hps, rfl, rfl, ?_, ?_⟩ <;>
    intro h <;>
    rw [commitWrites_commitProgram] <;>
    by_cases hc : s.error_counts.power + 1 > s.max_error_iterations <;>
    simp [hc] <;> omega

/-- One poll cycle with a successful power fetch carrying status `st`:
the status is written verbatim and the power counter resets. -/
theorem refresh_power_ok (s : ManagerState) (inp : FetchInputs) (now : Nat)
    (st : String) (tl : List String)
    (hs : inp.power_res.success = true)
    (hr : inp.power_res.result = some (st :: tl)) :
    ∃ s2, refresh_status s inp now = some s2 ∧
      s2.current_status.power = st ∧
      s2.error_counts.power = 0 := by
  have hps := powerStep_ok s.max_error_iterations s.error_counts.power
    inp.power_res st tl hs hr
  refine ⟨_, refresh_status_some s inp now _ _ hps, ?_, rfl⟩
  rw [commitWrites_commitProgram]
  rfl

/-- `refreshRun` distributes over list append. -/
theorem refreshRun_append (s : ManagerState) (a b : List (FetchInputs × Nat)) :
    refreshRun s (a ++ b) = refreshRun (refreshRun s a) b := by
  induction a generalizing s with
  | nil => rfl
  | cons x rest ih =>
    obtain ⟨inp, t⟩ := x
    simp [refreshRun, ih]

/-- Cached power and the power counter across a run of cycles whose power
fetches all fail, while the counter stays within the grace threshold. -/
theorem refreshRun_power_fail_le (L : List (FetchInputs × Nat))
    (s : ManagerState)
    (hf : ∀ x ∈ L, powerFetchFails x.1)
    (hle : s.error_counts.power + L.length ≤ s.max_error_iterations) :
    (refreshRun s L).current_status.power = s.current_status.power ∧
    (refreshRun s L).error_counts.power = s.error_counts.power + L.length ∧
    (refreshRun s L).max_error_iterations = s.max_error_iterations := by
  induction L generalizing s with
  | nil => exact ⟨rfl, rfl, rfl⟩
  | cons x rest ih =>
    obtain ⟨inp, t⟩ := x
    obtain ⟨s2, heq, hcnt, hmax, hkeep, _⟩ :=
      refresh_power_fail s inp t (hf _ (List.mem_cons_self _ _))
    have hstep : refreshRun s ((inp, t) :: rest) = refreshRun s2 rest := by
      simp [refreshRun, heq]
    have hle2 : s2.error_counts.power + rest.length ≤ s2.max_error_iterations := by
      rw [hcnt, hmax]
      simpa [Nat.add_assoc, Nat.add_comm, Nat.add_left_comm] using hle
    obtain ⟨ih1, ih2, ih3⟩ := ih s2 (fun x hx => hf x (List.mem_cons_of_mem _ hx)) hle2
    have h1 : s.error_counts.power + 1 ≤ s.max_error_iterations := by
      simp only [List.length_cons] at hle
      omega
    refine ⟨?_, ?_, ?_⟩
    · rw [hstep, ih1, hkeep h1]
    · rw [hstep, ih2, hcnt]
      simp only [List.length_cons]
      omega
    · rw [hstep, ih3, hmax]

/-! ### Fine-grained view of the commit critical section

`_refresh_status` commits under `self.lock` (lines 151-154) while
`get_status` copies under the same lock (lines 75-77).  The commit is
decomposed into its field writes (`commitProgram`); `pc` counts completed
writer micro-steps: `0` before the lock is acquired, `1` once it is held,
`1 + k` after `k` field writes, and `length + 2` after the release.  A
concurrent `get_status` only runs while the lock is free. -/

/-- The writes of the commit of one specific `_refresh_status` call
(empty when the power branch raised and no commit happens). -/
def refreshProgram (s : ManagerState) (inp : FetchInputs) (now : Nat) :
    List (StatusRecord → StatusRecord) :=
  match powerStep s.max_error_iterations s.error_counts.power inp.power_res with
  | none => []
  | some (pwr, _) =>
    commitProgram pwr (volumeStep s.error_counts.volume inp.vol_res).1
      (nowPlayingStep s.max_error_iterations s.error_counts.now_playing
        inp.np_title inp.np_uri).1 now

/-- Whether `self.lock` is held by the committing writer at micro-step `pc`. -/
def lockHeld (fs : List (StatusRecord → StatusRecord)) (pc : Nat) : Bool :=
  decide (1 ≤ pc) && decide (pc ≤ fs.length + 1)

/-- The shared record as it stands at micro-step `pc` of the commit. -/
def recordAt (r0 : StatusRecord) (fs : List (StatusRecord → StatusRecord))
    (pc : Nat) : StatusRecord :=
  commitWrites (fs.take (pc - 1)) r0

/-- `get_status` issued at micro-step `pc` of a commit: `none` while the
reader is blocked on the lock, otherwise the copy it returns. -/
def get_status_during (r0 : StatusRecord)
    (fs : List (StatusRecord → StatusRecord)) (pc : Nat) : Option StatusRecord :=
  if lockHeld fs pc then none else some (recordAt r0 fs pc)

/-! ### Temporal skeleton of `_update_loop`

`_update_loop` checks `self.stop_event.is_set()` at the top of each
iteration and ends each iteration with `time.sleep(self.poll_interval)` —
a plain sleep that always runs its full length; the stop event is only
observed at the next top-of-loop check.  `runLoop I s fuel t` runs the
loop with poll interval `I` from instant `t`, where the stop event is set
from instant `s` on; it returns the instant at which the loop exits
(`none` when `fuel` iterations were not enough to reach it). -/
def runLoop (I s : Nat) : Nat → Nat → Option Nat
  | 0, _ => none
  | fuel + 1, t => if s ≤ t then some t else runLoop I s fuel (t + I)

/-! ### Concrete fixtures -/

/-- A representative cached record mid-run. -/
def sampleRecord : StatusRecord :=
  { power := "active", volume := 25, muted := false, title := "Netflix",
    uri := "n:flix", now_playing_id := 100, timestamp := some 50 }

/-- A representative manager state: default configuration, an override
recorded at instant 100. -/
def sampleState : ManagerState :=
  { poll_interval := 10, max_error_iterations := 3,
    current_status := sampleRecord,
    error_counts := { power := 0, volume := 0, now_playing := 0 },
    last_override_time := 100 }

/-- A cycle where every upstream fetch fails. -/
def failInputs : FetchInputs :=
  { power_res := { success := false, result := none },
    vol_res := { success := false, result := none },
    np_title := "Unknown", np_uri := "" }

/-- A cycle where every upstream fetch succeeds. -/
def okInputs : FetchInputs :=
  { power_res := { success := true, result := some ["active"] },
    vol_res :=
      { success := true,
        result := some [some [VolumeEntry.mk (some "speaker") (some 30) (some false)]] },
    np_title := "YouTube", np_uri := "y:t" }

/-- A successful volume response whose single speaker-less entry leaves
the cached volume untouched. -/
def headphoneInputs : FetchInputs :=
  { power_res := { success := false, result := none },
    vol_res :=
      { success := true,
        result := some [some [VolumeEntry.mk (some "headphone") (some 3) (some true)]] },
    np_title := "Unknown", np_uri := "" }

/-- An environment with every variable set to `7`. -/
def envSeven : Env := fun _ => some 7

/-- Five consecutive cycles whose volume fetch fails. -/
def volFailRun : List (FetchInputs × Nat) :=
  [(failInputs, 200), (failInputs, 210), (failInputs, 220), (failInputs, 230),
   (failInputs, 240)]

/-- Three consecutive cycles whose power fetch fails (the default grace
threshold). -/
def powerFailRun3 : List (FetchInputs × Nat) :=
  [(failInputs, 200), (failInputs, 210), (failInputs, 220)]

/-- Four consecutive cycles whose power fetch fails (threshold plus one). -/
def powerFailRun4 : List (FetchInputs × Nat) :=
  powerFailRun3 ++ [(failInputs, 230)]

/-! ### Claim theorems -/

/-- **C5**: `_get_now_playing_id` is a total deterministic function of the
title implementing exact match against `NOW_PLAYING_ID_MAP` first, else the
first substring match in the map's declaration order, else 0; in particular
it maps "Netflix" to 100, "PS5" to 10, "Something Netflix Kids" to 100 and
"totally-unknown-app" to 0. -/
theorem C5_resolve_id_policy :
    (∀ t, get_now_playing_id t = resolveId_spec t) ∧
    get_now_playing_id "Netflix" = 100 ∧
    get_now_playing_id "PS5" = 10 ∧
    get_now_playing_id "Something Netflix Kids" = 100 ∧
    get_now_playing_id "totally-unknown-app" = 0 := by
  refine ⟨fun t => ?_, by decide, by decide, by decide, by decide⟩
  unfold get_now_playing_id resolveId_spec
  rw [lookupExact_eq_find?, substrLookup_eq_find?]
  cases NOW_PLAYING_ID_MAP.find? (fun kv => kv.1 == t) <;>
    cases NOW_PLAYING_ID_MAP.find? (fun kv => strContains kv.1 t) <;> simp

/-- **C6**: after `update_override("Spotify", "uri:x")`, a `get_status`
before any poll commit returns title "Spotify", uri "uri:x",
`now_playing_id` 106; the now-playing error counter is 0, the override
instant is recorded, and the record's timestamp is updated in the same
write. -/
theorem C6_update_override_spotify (s : ManagerState) (now : Nat) :
    get_status (update_override s "Spotify" "uri:x" now) =
      { s.current_status with
        title := "Spotify", uri := "uri:x",
        now_playing_id := 106, timestamp := some now } ∧
    (update_override s "Spotify" "uri:x" now).error_counts.now_playing = 0 ∧
    (update_override s "Spotify" "uri:x" now).last_override_time = now := by
  refine ⟨?_, rfl, rfl⟩
  have h106 : get_now_playing_id "Spotify" = 106 := by decide
  simp [get_status, update_override, h106]

/-- **C2**: a background-loop tick that falls strictly inside the cool-down
window after an override write leaves the whole manager state — and so
every field of the status record — unchanged, whatever the three fetches
would have returned: the poll is skipped entirely. -/
theorem C2_cooldown_tick_is_noop (s : ManagerState) (title uri : String)
    (t0 now : Nat) (inp : FetchInputs)
    (h : now - t0 < OVERRIDE_COOLDOWN) :
    update_tick (update_override s title uri t0) now inp =
      update_override s title uri t0 := by
  have hlo : (update_override s title uri t0).last_override_time = t0 := rfl
  unfold update_tick
  rw [hlo, if_pos h]

/-- Witness for C2 at a tick exactly one second before the cool-down
expires. -/
theorem C2_cooldown_tick_is_noop_witness :
    update_tick (update_override sampleState "Spotify" "uri:x" 100) 104 failInputs =
      update_override sampleState "Spotify" "uri:x" 100 ∧
    104 - 100 = OVERRIDE_COOLDOWN - 1 :=
  ⟨C2_cooldown_tick_is_noop sampleState "Spotify" "uri:x" 100 104 failInputs
    (by decide), by decide⟩

/-- One poll cycle with a failed volume fetch: cached volume and mute are
retained and only the volume counter moves. -/
theorem refresh_volume_fail (s : ManagerState) (inp : FetchInputs) (now : Nat)
    (hv : volumeFetchFails inp) (hp : powerNoRaise inp) :
    ∃ s2, refresh_status s inp now = some s2 ∧
      s2.current_status.volume = s.current_status.volume ∧
      s2.current_status.muted = s.current_status.muted ∧
      s2.error_counts.volume = s.error_counts.volume + 1 := by
  obtain ⟨pwr, pcnt, hps⟩ := powerStep_isSome s.max_error_iterations
    s.error_counts.power inp.power_res hp
  have hvs := volumeStep_fail s.error_counts.volume inp.vol_res hv
  refine ⟨_, refresh_status_some s inp now _ _ hps, ?_, ?_, ?_⟩
  · rw [commitWrites_commitProgram]
    simp [hvs]
  · rw [commitWrites_commitProgram]
    simp [hvs]
  · simp [hvs]

/-- **C4**: for any number of consecutive volume-fetch failures, the cached
volume and mute fields keep the values from the most recent successful
fetch (or the initial ones): each failure only increments the volume error
counter. -/
theorem C4_volume_never_reset (s : ManagerState) (L : List (FetchInputs × Nat))
    (hv : ∀ x ∈ L, volumeFetchFails x.1)
    (hp : ∀ x ∈ L, powerNoRaise x.1) :
    (refreshRun s L).current_status.volume = s.current_status.volume ∧
    (refreshRun s L).current_status.muted = s.current_status.muted ∧
    (refreshRun s L).error_counts.volume = s.error_counts.volume + L.length := by
  induction L generalizing s with
  | nil => exact ⟨rfl, rfl, rfl⟩
  | cons x rest ih =>
    obtain ⟨inp, t⟩ := x
    obtain ⟨s2, heq, hvol, hmut, hcnt⟩ :=
      refresh_volume_fail s inp t (hv _ (List.mem_cons_self _ _))
        (hp _ (List.mem_cons_self _ _))
    have hstep : refreshRun s ((inp, t) :: rest) = refreshRun s2 rest := by
      simp [refreshRun, heq]
    obtain ⟨ih1, ih2, ih3⟩ := ih s2 (fun x hx => hv x (List.mem_cons_of_mem _ hx))
      (fun x hx => hp x (List.mem_cons_of_mem _ hx))
    refine ⟨?_, ?_, ?_⟩
    · rw [hstep, ih1, hvol]
    · rw [hstep, ih2, hmut]
    · rw [hstep, ih3, hcnt]
      simp only [List.length_cons]
      omega

/-- Witness for C4: five straight volume failures leave volume 25 and
mute off while the counter reaches 5. -/
theorem C4_volume_never_reset_witness :
    (refreshRun sampleState volFailRun).current_status.volume = 25 ∧
    (refreshRun sampleState volFailRun).current_status.muted = false ∧
    (refreshRun sampleState volFailRun).error_counts.volume = 5 :=
  C4_volume_never_reset sampleState volFailRun (by decide) (by decide)

/-- **C10**: a successful volume response that never reaches the
`target == "speaker"` write (no speaker entry, or an empty / non-list
payload) still resets the volume error counter to zero but leaves the
cached volume and mute untouched. -/
theorem C10_volume_success_without_speaker (s : ManagerState)
    (inp : FetchInputs) (now : Nat) (d : List (Option (List VolumeEntry)))
    (hp : powerNoRaise inp)
    (hs : inp.vol_res.success = true)
    (hr : inp.vol_res.result = some d)
    (hn : noSpeakerWrite d) :
    ∃ s2, refresh_status s inp now = some s2 ∧
      s2.error_counts.volume = 0 ∧
      s2.current_status.volume = s.current_status.volume ∧
      s2.current_status.muted = s.current_status.muted := by
  obtain ⟨pwr, pcnt, hps⟩ := powerStep_isSome s.max_error_iterations
    s.error_counts.power inp.power_res hp
  have hvs := volumeStep_success_no_write s.error_counts.volume inp.vol_res d
    hs hr hn
  refine ⟨_, refresh_status_some s inp now _ _ hps, ?_, ?_, ?_⟩
  · simp [hvs]
  · rw [commitWrites_commitProgram]
    simp [hvs]
  · rw [commitWrites_commitProgram]
    simp [hvs]

/-- Witness for C10: a successful volume payload listing only a headphone
target. -/
theorem C10_volume_success_without_speaker_witness :
    ∃ s2, refresh_status sampleState headphoneInputs 200 = some s2 ∧
      s2.error_counts.volume = 0 ∧
      s2.current_status.volume = sampleState.current_status.volume ∧
      s2.current_status.muted = sampleState.current_status.muted :=
  C10_volume_success_without_speaker sampleState headphoneInputs 200
    [some [VolumeEntry.mk (some "headphone") (some 3) (some true)]]
    (by decide) (by decide) rfl (by decide)

/-- **C1**: starting from a freshly successful power fetch (counter 0),
any run of at most `max_error_iterations` consecutive power failures keeps
the cached power value and leaves the counter at the failure count; a run
of exactly `max_error_iterations + 1` failures turns the cached power into
"offline"; and a single successful fetch writes its status verbatim and
resets the counter to zero. -/
theorem C1_power_grace_period :
    (∀ (s : ManagerState) (L : List (FetchInputs × Nat)),
      (∀ x ∈ L, powerFetchFails x.1) → s.error_counts.power = 0 →
      L.length ≤ s.max_error_iterations →
      (refreshRun s L).current_status.power = s.current_status.power ∧
      (refreshRun s L).error_counts.power = L.length) ∧
    (∀ (s : ManagerState) (L : List (FetchInputs × Nat)),
      (∀ x ∈ L, powerFetchFails x.1) → s.error_counts.power = 0 →
      L.length = s.max_error_iterations + 1 →
      (refreshRun s L).current_status.power = "offline") ∧
    (∀ (s : ManagerState) (inp : FetchInputs) (now : Nat) (st : String)
      (tl : List String),
      inp.power_res.success = true → inp.power_res.result = some (st :: tl) →
      ∃ s2, refresh_status s inp now = some s2 ∧
        s2.current_status.power = st ∧ s2.error_counts.power = 0) := by
  refine ⟨?_, ?_, ?_⟩
  · intro s L hf h0 hle
    have := refreshRun_power_fail_le L s hf (by omega)
    exact ⟨this.1, by rw [this.2.1, h0]; omega⟩
  · intro s L hf h0 hlen
    rcases List.eq_nil_or_concat L with rfl | ⟨L', x, rfl⟩
    · simp at hlen
    · obtain ⟨inp, t⟩ := x
      rw [List.concat_eq_append] at hf hlen ⊢
      have hL' : L'.length = s.max_error_iterations := by
        simp at hlen
        omega
      obtain ⟨h1, h2, h3⟩ := refreshRun_power_fail_le L' s
        (fun y hy => hf y (List.mem_append_left _ hy)) (by omega)
      rw [refreshRun_append]
      obtain ⟨s2, heq, hcnt, hmax, _, hoff⟩ :=
        refresh_power_fail (refreshRun s L') inp t
          (hf (inp, t) (List.mem_append_right _ (List.mem_singleton_self _)))
      have hlast : refreshRun (refreshRun s L') [(inp, t)] = s2 := by
        simp [refreshRun, heq]
      rw [hlast]
      exact hoff (by omega)
  · intro s inp now st tl hs hr
    exact refresh_power_ok s inp now st tl hs hr

/-- Witness for C1 with the default threshold 3: three failures keep
"active" with counter 3, a fourth flips to "offline", and a successful
fetch of "active" resets the counter. -/
theorem C1_power_grace_period_witness :
    ((refreshRun sampleState powerFailRun3).current_status.power =
        sampleState.current_status.power ∧
      (refreshRun sampleState powerFailRun3).error_counts.power = 3) ∧
    (refreshRun sampleState powerFailRun4).current_status.power = "offline" ∧
    (∃ s2, refresh_status sampleState okInputs 7 = some s2 ∧
      s2.current_status.power = "active" ∧ s2.error_counts.power = 0) :=
  ⟨C1_power_grace_period.1 sampleState powerFailRun3 (by decide) rfl (by decide),
   C1_power_grace_period.2.1 sampleState powerFailRun4 (by decide) rfl (by decide),
   C1_power_grace_period.2.2 sampleState okInputs 7 "active" [] (by decide) rfl⟩

theorem nowPlayingStep_ok (maxI c : Nat) (title uri : String)
    (h : title ≠ "Unknown" ∨ uri ≠ "") :
    nowPlayingStep maxI c title uri =
      (some (title, uri, get_now_playing_id title), 0) := by
  unfold nowPlayingStep
  rw [if_pos h]

theorem nowPlayingStep_fail (maxI c : Nat) (title uri : String)
    (h1 : title = "Unknown") (h2 : uri = "") :
    nowPlayingStep maxI c title uri =
      (if c + 1 > maxI then some ("Unknown", "", 0) else none, c + 1) := by
  subst h1; subst h2
  unfold nowPlayingStep
  rw [if_neg (by simp)]

/-- **C7**: a now-playing fetch succeeds exactly when the title is not
"Unknown" or the uri is non-empty; success writes title, uri and the
derived id and resets the counter; a failure keeps the previous values
while the failure count stays within the threshold and resets them to the
("Unknown", "", 0) sentinel once the count exceeds it, incrementing the
counter either way. -/
theorem C7_now_playing_policy (s : ManagerState) (inp : FetchInputs)
    (now : Nat) (hp : powerNoRaise inp) :
    ((inp.np_title ≠ "Unknown" ∨ inp.np_uri ≠ "") →
      ∃ s2, refresh_status s inp now = some s2 ∧
        s2.current_status.title = inp.np_title ∧
        s2.current_status.uri = inp.np_uri ∧
        s2.current_status.now_playing_id = get_now_playing_id inp.np_title ∧
        s2.error_counts.now_playing = 0) ∧
    (inp.np_title = "Unknown" → inp.np_uri = "" →
      s.error_counts.now_playing + 1 ≤ s.max_error_iterations →
      ∃ s2, refresh_status s inp now = some s2 ∧
        s2.current_status.title = s.current_status.title ∧
        s2.current_status.uri = s.current_status.uri ∧
        s2.current_status.now_playing_id = s.current_status.now_playing_id ∧
        s2.error_counts.now_playing = s.error_counts.now_playing + 1) ∧
    (inp.np_title = "Unknown" → inp.np_uri = "" →
      s.error_counts.now_playing + 1 > s.max_error_iterations →
      ∃ s2, refresh_status s inp now = some s2 ∧
        s2.current_status.title = "Unknown" ∧
        s2.current_status.uri = "" ∧
        s2.current_status.now_playing_id = 0 ∧
        s2.error_counts.now_playing = s.error_counts.now_playing + 1) := by
  obtain ⟨pwr, pcnt, hps⟩ := powerStep_isSome s.max_error_iterations
    s.error_counts.power inp.power_res hp
  refine ⟨?_, ?_, ?_⟩
  · intro h
    have hns := nowPlayingStep_ok s.max_error_iterations
      s.error_counts.now_playing inp.np_title inp.np_uri h
    refine ⟨_, refresh_status_some s inp now _ _ hps, ?_, ?_, ?_, ?_⟩ <;>
      (rw [commitWrites_commitProgram]; simp [hns])
  · intro h1 h2 hle
    have hns := nowPlayingStep_fail s.max_error_iterations
      s.error_counts.now_playing inp.np_title inp.np_uri h1 h2
    rw [if_neg (by omega)] at hns
    refine ⟨_, refresh_status_some s inp now _ _ hps, ?_, ?_, ?_, ?_⟩ <;>
      (rw [commitWrites_commitProgram]; simp [hns])
  · intro h1 h2 hgt
    have hns := nowPlayingStep_fail s.max_error_iterations
      s.error_counts.now_playing inp.np_title inp.np_uri h1 h2
    rw [if_pos (by omega)] at hns
    refine ⟨_, refresh_status_some s inp now _ _ hps, ?_, ?_, ?_, ?_⟩ <;>
      (rw [commitWrites_commitProgram]; simp [hns])

/-- Witness for C7 on a successful fetch of "YouTube". -/
theorem C7_now_playing_policy_witness :
    (okInputs.np_title ≠ "Unknown" ∨ okInputs.np_uri ≠ "") ∧
    (∃ s2, refresh_status sampleState okInputs 7 = some s2 ∧
      s2.current_status.title = okInputs.np_title ∧
      s2.current_status.uri = okInputs.np_uri ∧
      s2.current_status.now_playing_id = get_now_playing_id okInputs.np_title ∧
      s2.error_counts.now_playing = 0) :=
  ⟨by decide,
   (C7_now_playing_policy sampleState okInputs 7 (by decide)).1 (by decide)⟩

/-- **C3**: a `get_status` issued at any micro-step of a commit either
blocks on the lock or returns exactly the pre-commit record or exactly the
post-commit record — never a mix of old and new fields — and the committed
record is the one `_refresh_status` produces, with its timestamp set to
the commit instant inside the same critical section. -/
theorem C3_commit_atomicity (s : ManagerState) (inp : FetchInputs)
    (now pc : Nat) :
    (get_status_during (get_status s) (refreshProgram s inp now) pc = none ∨
     get_status_during (get_status s) (refreshProgram s inp now) pc =
       some (get_status s) ∨
     get_status_during (get_status s) (refreshProgram s inp now) pc =
       some (commitWrites (refreshProgram s inp now) (get_status s))) ∧
    (∀ s2, refresh_status s inp now = some s2 →
      get_status s2 = commitWrites (refreshProgram s inp now) (get_status s) ∧
      (get_status s2).timestamp = some now) := by
  constructor
  · set fs := refreshProgram s inp now with hfs
    by_cases hl : lockHeld fs pc = true
    · exact Or.inl (by simp [get_status_during, hl])
    · simp only [lockHeld, Bool.and_eq_true, decide_eq_true_eq, not_and,
        Bool.not_eq_true] at hl
      by_cases h0 : pc = 0
      · refine Or.inr (Or.inl ?_)
        subst h0
        simp [get_status_during, lockHeld, recordAt, commitWrites]
      · refine Or.inr (Or.inr ?_)
        have h1 : 1 ≤ pc := Nat.one_le_iff_ne_zero.mpr h0
        have h2 : fs.length + 1 < pc := by
          rcases Nat.lt_or_ge (fs.length + 1) pc with h | h
          · exact h
          · exact absurd (decide_eq_true_eq.mpr h) (by simpa using hl h1)
        have htake : fs.take (pc - 1) = fs :=
          List.take_of_length_le (by omega)
        simp [get_status_during, lockHeld, recordAt, htake]
        omega
  · intro s2 h
    rcases hps : powerStep s.max_error_iterations s.error_counts.power
      inp.power_res with _ | ⟨pwr, pcnt⟩
    · rw [refresh_status, hps] at h
      exact absurd h (by simp)
    · rw [refresh_status_some s inp now _ _ hps] at h
      obtain rfl := (Option.some_inj.mp h).symm
      have hprog : refreshProgram s inp now =
          commitProgram pwr (volumeStep s.error_counts.volume inp.vol_res).1
            (nowPlayingStep s.max_error_iterations s.error_counts.now_playing
              inp.np_title inp.np_uri).1 now := by
        unfold refreshProgram
        rw [hps]
      refine ⟨by rw [hprog]; rfl, ?_⟩
      show (commitWrites _ _).timestamp = some now
      rw [commitWrites_commitProgram]

/-- Witness for C3: a reader at micro-step 2 of a concrete commit, and the
committed record of that same cycle. -/
theorem C3_commit_atomicity_witness :
    (get_status_during (get_status sampleState)
        (refreshProgram sampleState okInputs 7) 2 = none ∨
     get_status_during (get_status sampleState)
        (refreshProgram sampleState okInputs 7) 2 =
       some (get_status sampleState) ∨
     get_status_during (get_status sampleState)
        (refreshProgram sampleState okInputs 7) 2 =
       some (commitWrites (refreshProgram sampleState okInputs 7)
         (get_status sampleState))) ∧
    (get_status ((refresh_status sampleState okInputs 7).getD sampleState) =
      commitWrites (refreshProgram sampleState okInputs 7)
        (get_status sampleState) ∧
     (get_status
        ((refresh_status sampleState okInputs 7).getD sampleState)).timestamp =
       some 7) :=
  ⟨(C3_commit_atomicity sampleState okInputs 7 2).1,
   (C3_commit_atomicity sampleState okInputs 7 2).2 _ (by decide)⟩

/-- **C8 counterexample**: the inter-poll sleep is `time.sleep`, not an
event wait, so it is not interruptible by the shutdown signal.  With poll
interval 10, the stop event set at instant 3 — in the middle of the sleep
that covers instants 0 to 10 — does not shorten it: the loop exits at
instant 10, the scheduled end of that sleep, not at instant 3. -/
theorem C8_sleep_not_interruptible :
    runLoop 10 3 2 0 = some 10 ∧ (10 : Nat) ≠ 3 := by decide

/-- The loop exits at the first top-of-loop check at or after the signal
instant: within one poll interval, and always on an interval boundary
(every sleep runs its full length). -/
theorem runLoop_exit_bound (I s : Nat) (hI : 0 < I) :
    ∀ (fuel t : Nat), I ∣ t → t ≤ s → s < t + fuel →
      ∃ r, runLoop I s fuel t = some r ∧ s ≤ r ∧ r < s + I ∧ I ∣ r := by
  intro fuel
  induction fuel with
  | zero => intro t _ h1 h2; omega
  | succ f ih =>
    intro t hdvd h1 h2
    by_cases hst : s ≤ t
    · exact ⟨t, by simp [runLoop, hst], hst, by omega, hdvd⟩
    · push_neg at hst
      by_cases hnext : s ≤ t + I
      · rcases f with _ | f'
        · omega
        · refine ⟨t + I, ?_, hnext, by omega, dvd_add hdvd dvd_rfl⟩
          show runLoop I s (f' + 1 + 1) t = some (t + I)
          rw [runLoop, if_neg (by omega)]
          rw [runLoop, if_pos hnext]
      · push_neg at hnext
        obtain ⟨r, hr, h3, h4, h5⟩ := ih (t + I) (dvd_add hdvd dvd_rfl)
          (by omega) (by omega)
        refine ⟨r, ?_, h3, h4, h5⟩
        rw [runLoop, if_neg (by omega)]
        exact hr

/-- **C8 amended**: the background loop's only unbounded wait is the
inter-poll sleep; that sleep is *not* interruptible by the shutdown signal
(every sleep runs its full fixed length — the exit instant is always an
interval boundary), but it is bounded by the poll interval, so once the
stop event is set the loop exits at the next top-of-loop check, after its
current sleep/poll completes and within one poll interval of the signal. -/
theorem C8_loop_exits_after_current_sleep (I s : Nat) (hI : 0 < I) :
    ∃ t, runLoop I s (s + 1) 0 = some t ∧ s ≤ t ∧ t < s + I ∧ I ∣ t :=
  runLoop_exit_bound I s hI (s + 1) 0 (dvd_zero I) (Nat.zero_le s) (by omega)

/-- Witness for the amended C8 at poll interval 10 and signal instant 3. -/
theorem C8_loop_exits_after_current_sleep_witness :
    (0 : Nat) < 10 ∧
    (∃ t, runLoop 10 3 (3 + 1) 0 = some t ∧ 3 ≤ t ∧ t < 3 + 10 ∧ 10 ∣ t) :=
  ⟨by decide, C8_loop_exits_after_current_sleep 10 3 (by decide)⟩

/-- **C9 counterexample**: the override cool-down is not a configuration
value.  In an environment where *every* variable is set to 7 — so any
environment-loaded setting, whatever its name, reads 7 — `__init__` loads
poll interval 7 and threshold 7, yet a tick 6 time-units after the
override still polls (the state changes) while a tick 4 time-units after
is suppressed: the suppression window is the hard-coded 5 of
`_update_loop`, insensitive to the environment. -/
theorem C9_cooldown_not_from_env :
    getenvInt envSeven "OVERRIDE_COOLDOWN" 5 = 7 ∧
    (initManager envSeven).poll_interval = 7 ∧
    (initManager envSeven).max_error_iterations = 7 ∧
    update_tick { initManager envSeven with last_override_time := 100 } 106
        failInputs ≠
      { initManager envSeven with last_override_time := 100 } ∧
    update_tick { initManager envSeven with last_override_time := 100 } 104
        failInputs =
      { initManager envSeven with last_override_time := 100 } := by decide

/-- **C9 amended**: the poll interval (default 10) and the error-grace
threshold (default 3) are loaded from the environment once in `__init__`,
but the override cool-down window is the hard-coded constant 5 in the loop
body, not a loaded configuration value; the suppression window the
background loop applies is exactly that constant 5. -/
theorem C9_config_and_cooldown (env : Env) (s : ManagerState) (now : Nat)
    (inp : FetchInputs) :
    (initManager env).poll_interval = getenvInt env "POLL_INTERVAL" 10 ∧
    (initManager env).max_error_iterations =
      getenvInt env "MAX_ERROR_ITERATIONS" 3 ∧
    OVERRIDE_COOLDOWN = 5 ∧
    (now - s.last_override_time < 5 → update_tick s now inp = s) ∧
    (¬ now - s.last_override_time < 5 →
      update_tick s now inp = (refresh_status s inp now).getD s) := by
  refine ⟨rfl, rfl, rfl, ?_, ?_⟩ <;> intro h <;>
    simp [update_tick, OVERRIDE_COOLDOWN, h]

/-- Witness for the amended C9: default-free environment reads and a
suppressed tick 4 time-units after the override. -/
theorem C9_config_and_cooldown_witness :
    (initManager envSeven).poll_interval = getenvInt envSeven "POLL_INTERVAL" 10 ∧
    update_tick sampleState 104 failInputs = sampleState :=
  ⟨(C9_config_and_cooldown envSeven sampleState 104 failInputs).1,
   (C9_config_and_cooldown envSeven sampleState 104 failInputs).2.2.2.1
     (by decide)⟩

end MyTV
